import Mathlib

/-!
# Cloud cost optimizer — verification of the Cost Analytics Engine

A shallow embedding of the analytical core of the `cloud-cost-optimizer`
repository (`src/ml/advanced_optimizer.py`, `src/ml/anomaly_detector.py`,
`src/ml/optimizer.py`, `src/ml/cost_predictor.py`) together with theorems
settling the behavioural claims about it.

Conventions of the embedding:
* Python floats are modelled as exact rationals (`ℚ`); float rounding is out
  of scope.  Pandas `NaN` values that can arise in a column (sample standard
  deviation over a single observation) are modelled as `Option ℚ` with
  `none` for `NaN`, and `NaN`-propagation is explicit.
* The transcendental kernels of numpy/pandas (`np.log1p`, the square root
  inside `Series.std`) are external library routines; they enter the
  embedding as function parameters `log1pQ, sqrtQ : ℚ → ℚ`.  No theorem
  below depends on their values.
* Functions that can raise in Python are translated with an `Except MLError`
  codomain, where `MLError` is the repository's failure taxonomy.
-/

namespace CloudCost

/-- The failure taxonomy of the engine (spec §7): typed counterparts of the
exceptions the Python source raises (`ValueError` with the corresponding
message, `FileNotFoundError`). -/
inductive MLError where
  | invalidRecord
  | insufficientFeatures
  | insufficientHistory
  | notTrained
  | modelNotFound
  | computationFailure
  deriving DecidableEq, Repr

/-! ## Budget categorization and budget-driven optimization
(`src/ml/advanced_optimizer.py`, `EnterpriseOptimizer`) -/

/-- The four budget categories of `EnterpriseOptimizer.budget_thresholds`. -/
inductive BudgetCategory where
  | small
  | medium
  | large
  | enterprise
  deriving DecidableEq, Repr

open BudgetCategory in
/-- `EnterpriseOptimizer.budget_thresholds`: the ordered bracket table.  The
upper bound is `none` for `float('inf')` (every finite budget is below it). -/
def budget_thresholds : List (BudgetCategory × ℚ × Option ℚ) :=
  [ (small, 100000, some 500000),
    (medium, 500000, some 2000000),
    (large, 2000000, some 5000000),
    (enterprise, 5000000, none) ]

/-- The bracket test `min_budget <= monthly_budget < max_budget` of
`analyze_budget_category`'s loop body. -/
def inBracket (b : ℚ) : BudgetCategory × ℚ × Option ℚ → Bool
  | (_, lo, some hi) => decide (lo ≤ b) && decide (b < hi)
  | (_, lo, none) => decide (lo ≤ b)

/-- `EnterpriseOptimizer.analyze_budget_category`: the first bracket of
`budget_thresholds` containing the budget, defaulting to `enterprise`. -/
def analyze_budget_category (monthly_budget : ℚ) : BudgetCategory :=
  match budget_thresholds.find? (inBracket monthly_budget) with
  | some (c, _, _) => c
  | none => .enterprise

/-- Output record of `EnterpriseOptimizer.optimize_for_budget`. -/
structure BudgetOptimization where
  budget_category : BudgetCategory
  current_monthly_cost : ℚ
  projected_monthly_savings : ℚ
  cost_reduction_percentage : ℚ
  annual_savings : ℚ
  recommendations : List String
  deriving DecidableEq, Repr

/-- The category-specific recommendation texts of `optimize_for_budget`. -/
def budgetRecommendations : BudgetCategory → List String
  | .small | .medium =>
      [ "Implement auto-scaling for development environments",
        "Purchase reserved instances for stable workloads",
        "Right-size oversized instances based on utilization" ]
  | .large =>
      [ "Implement spot instance strategies for non-critical workloads",
        "Optimize data lifecycle and storage tiers",
        "Deploy advanced monitoring and automated scaling",
        "Implement cost allocation tags for chargeback" ]
  | .enterprise =>
      [ "Deploy enterprise discount programs and volume commitments",
        "Implement multi-cloud cost arbitrage strategies",
        "Advanced workload placement optimization",
        "Enterprise-grade FinOps governance framework",
        "Automated cost anomaly detection and remediation" ]

/-- The category-specific savings levers of `optimize_for_budget` summed
against current monthly spend (small/medium 15%+20%, large 20%+15%+10%,
enterprise 25%+8%+12%). -/
def projectedSavings (category : BudgetCategory) (current_monthly : ℚ) : ℚ :=
  match category with
  | .small | .medium => current_monthly * (15/100) + current_monthly * (20/100)
  | .large =>
      current_monthly * (20/100) + current_monthly * (15/100) +
        current_monthly * (10/100)
  | .enterprise =>
      current_monthly * (25/100) + current_monthly * (8/100) +
        current_monthly * (12/100)

/-- `EnterpriseOptimizer.optimize_for_budget` on a cost table (the list of
the table's `cost` column).  `current_monthly = costs_df['cost'].sum()`,
`potential_reduction = projected_savings / current_monthly`,
`annual_savings = projected_savings * 12`. -/
def optimize_for_budget (costs : List ℚ) (monthly_budget : ℚ) :
    BudgetOptimization :=
  let category := analyze_budget_category monthly_budget
  let current_monthly := costs.sum
  let savings := projectedSavings category current_monthly
  { budget_category := category
    current_monthly_cost := current_monthly
    projected_monthly_savings := savings
    cost_reduction_percentage := savings / current_monthly * 100
    annual_savings := savings * 12
    recommendations := budgetRecommendations category }

/-! ## Anomaly severity
(`src/ml/anomaly_detector.py`, `CostAnomalyDetector._calculate_severity`) -/

/-- Severity buckets of `_calculate_severity`. -/
inductive Severity where
  | normal
  | low
  | medium
  | high
  deriving DecidableEq, Repr

/-- Numeric rank of a severity, `normal` lowest, `high` highest. -/
def severityRank : Severity → ℕ
  | .normal => 0
  | .low => 1
  | .medium => 2
  | .high => 3

/-- The score-only part of `_calculate_severity`: `score < -0.5 → high`,
`score < -0.2 → medium`, `score < 0 → low`, else `normal`. -/
def scoreSeverity (score : ℚ) : Severity :=
  if score < -(1/2) then .high
  else if score < -(1/5) then .medium
  else if score < 0 then .low
  else .normal

/-- The cost-magnitude adjustment of `_calculate_severity`: when
`cost > p95_cost * 2`, `medium` becomes `high` and `low` becomes `medium`;
every other severity is left unchanged. -/
def costAdjust (p95_cost cost : ℚ) (s : Severity) : Severity :=
  if p95_cost * 2 < cost then
    match s with
    | .medium => .high
    | .low => .medium
    | s => s
  else s

/-- `CostAnomalyDetector._calculate_severity` for one (score, cost) pair,
with `p95_cost` the trained detector's `baseline_stats['p95_cost']`. -/
def calculate_severity (p95_cost score cost : ℚ) : Severity :=
  costAdjust p95_cost cost (scoreSeverity score)

/-! ## Storage-tier optimization
(`src/ml/optimizer.py`, `ResourceOptimizer._get_optimal_storage_class` and
`ResourceOptimizer.analyze_storage_optimization`) -/

/-- AWS storage price per GB/month from `_get_optimal_storage_class`'s
`pricing` table. -/
def awsStoragePrice : String → ℚ
  | "standard" => 23/1000
  | "standard_ia" => 125/10000
  | "glacier" => 4/1000
  | "glacier_deep" => 99/100000
  | _ => 0

/-- Azure storage price per GB/month from `_get_optimal_storage_class`'s
`pricing` table. -/
def azureStoragePrice : String → ℚ
  | "hot" => 184/10000
  | "cool" => 1/100
  | "archive" => 99/100000
  | _ => 0

/-- `ResourceOptimizer._get_optimal_storage_class`: maps days since last
access to a provider tier and prices the projected cost as
`size_gb * tier_price`; providers other than aws/azure get
`('standard', current_cost)`. -/
def get_optimal_storage_class (provider : String) (last_accessed_days : ℚ)
    (current_cost size_gb : ℚ) : String × ℚ :=
  if provider = "aws" then
    let optimal_class :=
      if last_accessed_days ≤ 30 then "standard"
      else if last_accessed_days ≤ 90 then "standard_ia"
      else if last_accessed_days ≤ 365 then "glacier"
      else "glacier_deep"
    (optimal_class, size_gb * awsStoragePrice optimal_class)
  else if provider = "azure" then
    let optimal_class :=
      if last_accessed_days ≤ 30 then "hot"
      else if last_accessed_days ≤ 90 then "cool"
      else "archive"
    (optimal_class, size_gb * azureStoragePrice optimal_class)
  else
    ("standard", current_cost)

/-- One row of the storage table consumed by `analyze_storage_optimization`
(all columns present; the source's `.get` defaults never fire then). -/
structure StorageRecord where
  resource_id : String
  provider : String
  service : String
  storage_class : String
  last_accessed_days : ℚ
  monthly_cost : ℚ
  size_gb : ℚ
  deriving DecidableEq, Repr

/-- A storage recommendation as emitted by `analyze_storage_optimization`. -/
structure StorageRecommendation where
  resource_id : String
  provider : String
  service : String
  current_storage_class : String
  recommended_storage_class : String
  current_cost : ℚ
  projected_cost : ℚ
  monthly_savings : ℚ
  last_accessed_days : ℚ
  size_gb : ℚ
  confidence : ℚ
  deriving DecidableEq, Repr

/-- The loop body of `analyze_storage_optimization` for a single storage
record: emit a recommendation only when the optimal class differs from the
current one and the savings exceed $5/month. -/
def processStorage (s : StorageRecord) : Option StorageRecommendation :=
  let oc := get_optimal_storage_class s.provider s.last_accessed_days
    s.monthly_cost s.size_gb
  if oc.1 ≠ s.storage_class then
    let savings := s.monthly_cost - oc.2
    if 5 < savings then
      some { resource_id := s.resource_id
             provider := s.provider
             service := s.service
             current_storage_class := s.storage_class
             recommended_storage_class := oc.1
             current_cost := s.monthly_cost
             projected_cost := oc.2
             monthly_savings := savings
             last_accessed_days := s.last_accessed_days
             size_gb := s.size_gb
             confidence := 85/100 }
    else none
  else none

/-- `ResourceOptimizer.analyze_storage_optimization` over the whole table. -/
def analyze_storage_optimization (rows : List StorageRecord) :
    List StorageRecommendation :=
  rows.filterMap processStorage

/-! ## Rightsizing
(`src/ml/optimizer.py`, `ResourceOptimizer.generate_rightsizing_recommendations`
and `ResourceOptimizer._find_optimal_instance_type`).  Monetary fields keep
their exact values; the source's `round(·, 2)` display rounding and the
`reasoning` text are not modelled. -/

/-- One entry of the instance catalog: vCPU count, memory (GiB) and monthly
cost. -/
structure InstanceSpec where
  cpu : ℚ
  memory : ℚ
  cost : ℚ
  deriving DecidableEq, Repr

/-- A provider's instance catalog, ordered as the Python dict's insertion
order. -/
abbrev Catalog := List (String × InstanceSpec)

/-- The AWS half of `instance_hierarchy` in
`generate_rightsizing_recommendations`. -/
def awsCatalog : Catalog :=
  [ ("t3.nano", ⟨2, 1/2, 7/2⟩),
    ("t3.micro", ⟨2, 1, 7⟩),
    ("t3.small", ⟨2, 2, 14⟩),
    ("t3.medium", ⟨2, 4, 28⟩),
    ("t3.large", ⟨2, 8, 56⟩),
    ("m5.large", ⟨2, 8, 7002/100⟩),
    ("m5.xlarge", ⟨4, 16, 14016/100⟩),
    ("m5.2xlarge", ⟨8, 32, 28032/100⟩),
    ("m5.4xlarge", ⟨16, 64, 56016/100⟩) ]

/-- The Azure half of `instance_hierarchy`. -/
def azureCatalog : Catalog :=
  [ ("Standard_B1s", ⟨1, 1, 752/100⟩),
    ("Standard_B2s", ⟨2, 4, 3008/100⟩),
    ("Standard_D2s_v4", ⟨2, 8, 7008/100⟩),
    ("Standard_D4s_v4", ⟨4, 16, 14016/100⟩),
    ("Standard_D8s_v4", ⟨8, 32, 28032/100⟩) ]

/-- `instance_hierarchy`: per-provider catalogs. -/
def instance_hierarchy : List (String × Catalog) :=
  [("aws", awsCatalog), ("azure", azureCatalog)]

/-- Python's `int()` on a rational: truncation toward zero. -/
def pyInt (q : ℚ) : ℤ :=
  if 0 ≤ q then ⌊q⌋ else ⌈q⌉

/-- `required_cpu = max(1, int(current_spec['cpu'] * cpu_util / 100 * 1.2))`
from `_find_optimal_instance_type`. -/
def requiredCpu (current_spec : InstanceSpec) (cpu_util : ℚ) : ℚ :=
  max 1 ((pyInt (current_spec.cpu * cpu_util / 100 * (12/10)) : ℚ))

/-- `required_memory = max(0.5, current_spec['memory'] * memory_util / 100 * 1.2)`
from `_find_optimal_instance_type`. -/
def requiredMemory (current_spec : InstanceSpec) (memory_util : ℚ) : ℚ :=
  max (1/2) (current_spec.memory * memory_util / 100 * (12/10))

/-- The update of the best candidate in `_find_optimal_instance_type`'s loop:
take entry `e` when it meets both requirements and costs less than the best
so far. -/
def rsStep (rc rm : ℚ) (best : String × ℚ) (e : String × InstanceSpec) :
    String × ℚ :=
  if rc ≤ e.2.cpu ∧ rm ≤ e.2.memory ∧ e.2.cost < best.2 then (e.1, e.2.cost)
  else best

/-- `ResourceOptimizer._find_optimal_instance_type`: scan the provider's
catalog (missing providers give an empty catalog via `.get(provider, {})`,
a missing current type returns it unchanged) for the cheapest entry meeting
the headroom-adjusted requirements and beating the current type's catalog
cost. -/
def find_optimal_instance_type (hierarchy : List (String × Catalog))
    (provider current_type : String) (cpu_util memory_util : ℚ) : String :=
  let available := (hierarchy.lookup provider).getD []
  match available.lookup current_type with
  | none => current_type
  | some current_spec =>
      let rc := requiredCpu current_spec cpu_util
      let rm := requiredMemory current_spec memory_util
      (available.foldl (rsStep rc rm) (current_type, current_spec.cost)).1

/-- `ResourceOptimizer._calculate_recommendation_confidence`. -/
def calculate_recommendation_confidence
    (cpu_util memory_util savings_ratio : ℚ) : ℚ :=
  let c1 := (1/2 : ℚ)
  let c2 := if cpu_util < 20 then c1 + 3/10
    else if cpu_util < 40 then c1 + 2/10 else c1
  let c3 := if memory_util < 30 then c2 + 2/10
    else if memory_util < 50 then c2 + 1/10 else c2
  let c4 := if 1/2 < savings_ratio then c3 + 2/10
    else if 3/10 < savings_ratio then c3 + 1/10 else c3
  min (95/100) c4

/-- One row of the instance table consumed by
`generate_rightsizing_recommendations` (all columns present, so the source's
`.get` defaults never fire). -/
structure InstanceRecord where
  resource_id : String
  provider : String
  service : String
  instance_type : String
  cpu_utilization : ℚ
  memory_utilization : ℚ
  monthly_cost : ℚ
  deriving DecidableEq, Repr

/-- A rightsizing recommendation as emitted by
`generate_rightsizing_recommendations`. -/
structure RightsizingRecommendation where
  resource_id : String
  provider : String
  service : String
  current_instance : String
  recommended_instance : String
  current_cost : ℚ
  projected_cost : ℚ
  monthly_savings : ℚ
  confidence : ℚ
  deriving DecidableEq, Repr

/-- The loop body of `generate_rightsizing_recommendations` for one
instance: skip providers without a catalog, look up the optimal type, and
emit a recommendation only when it differs from the current type and
`savings = monthly_cost - optimal_cost` exceeds $10/month. -/
def generate_rightsizing_one (inst : InstanceRecord) :
    Option RightsizingRecommendation :=
  match instance_hierarchy.lookup inst.provider with
  | none => none
  | some available =>
      let optimal := find_optimal_instance_type instance_hierarchy
        inst.provider inst.instance_type inst.cpu_utilization
        inst.memory_utilization
      if optimal ≠ inst.instance_type then
        match available.lookup optimal with
        | none => none
        | some ospec =>
            let savings := inst.monthly_cost - ospec.cost
            if 10 < savings then
              some { resource_id := inst.resource_id
                     provider := inst.provider
                     service := inst.service
                     current_instance := inst.instance_type
                     recommended_instance := optimal
                     current_cost := inst.monthly_cost
                     projected_cost := ospec.cost
                     monthly_savings := savings
                     confidence := calculate_recommendation_confidence
                       inst.cpu_utilization inst.memory_utilization
                       (savings / inst.monthly_cost) }
            else none
      else none

/-- `ResourceOptimizer.generate_rightsizing_recommendations`: per-instance
recommendations, sorted by monthly savings descending (stable). -/
def generate_rightsizing_recommendations (instances : List InstanceRecord) :
    List RightsizingRecommendation :=
  (instances.filterMap generate_rightsizing_one).insertionSort
    (fun a b => b.monthly_savings ≤ a.monthly_savings)

/-- The catalog-entry requirement exactly as the code computes it
(`requiredCpu`/`requiredMemory`, i.e. with `int()` truncation and the
`max(1, ·)` / `max(0.5, ·)` clamps). -/
def codeQualifies (current_spec : InstanceSpec) (cpu_util memory_util : ℚ)
    (e : String × InstanceSpec) : Prop :=
  requiredCpu current_spec cpu_util ≤ e.2.cpu ∧
    requiredMemory current_spec memory_util ≤ e.2.memory

instance (cs : InstanceSpec) (u m : ℚ) (e : String × InstanceSpec) :
    Decidable (codeQualifies cs u m e) := by
  unfold codeQualifies; infer_instance

/-- Claim C5's catalog-entry requirement, following the spec's words: the
entry's cpu and memory must be at least `current_spec × utilization% × 1.2`,
with no truncation and no clamps.  This definition follows the
specification, not the source, and exists to be compared with the source's
behaviour. -/
def specQualifies (current_spec : InstanceSpec) (cpu_util memory_util : ℚ)
    (e : String × InstanceSpec) : Prop :=
  current_spec.cpu * cpu_util / 100 * (12/10) ≤ e.2.cpu ∧
    current_spec.memory * memory_util / 100 * (12/10) ≤ e.2.memory

/-- Claim C5 as stated, following the spec's words: a recommendation is
produced iff some catalog entry meets the (un-truncated, un-clamped)
requirements, costs less than the current type's catalog cost, is the
lowest-cost such entry, and yields savings over $10/month against the
instance's monthly cost.  This definition follows the specification, not
the source, and exists to be compared with the source's behaviour. -/
def specProducesRec (catalog : Catalog) (inst : InstanceRecord) : Prop :=
  ∃ cs, catalog.lookup inst.instance_type = some cs ∧
    ∃ e ∈ catalog,
      specQualifies cs inst.cpu_utilization inst.memory_utilization e ∧
      e.2.cost < cs.cost ∧
      (∀ e2 ∈ catalog,
        specQualifies cs inst.cpu_utilization inst.memory_utilization e2 →
        e2.2.cost < cs.cost → e.2.cost ≤ e2.2.cost) ∧
      10 < inst.monthly_cost - e.2.cost

/-! ## Feature preparation
(`src/ml/anomaly_detector.py`, `CostAnomalyDetector.prepare_features`).
The pandas numerics are modelled exactly over `ℚ` except for the square
root inside `Series.std` and `np.log1p`, which are the parameters
`sqrtQ, log1pQ : ℚ → ℚ`; a sample standard deviation over fewer than two
observations is pandas `NaN`, modelled as `none`. -/

/-- A timestamp together with its calendar decomposition (the fields pandas
derives with `.dt.hour`, `.dt.dayofweek`, `.dt.day`, `.dt.month`); `t` is
the linear instant used by `sort_values('timestamp')`. -/
structure Timestamp where
  t : ℤ
  hour : ℕ
  day_of_week : ℕ
  day_of_month : ℕ
  month : ℕ
  deriving DecidableEq, Repr, Inhabited

/-- A raw cost record as consumed by `prepare_features`. -/
structure CostRecord where
  timestamp : Timestamp
  provider : String
  cost : ℚ
  usage_hours : Option ℚ
  resource_count : Option ℚ
  deriving DecidableEq, Repr, Inhabited

/-- The fixed provider encoding `{aws: 0, azure: 1, onpremises: 2}` with
`fillna(3)` for unseen providers. -/
def providerEncode (p : String) : ℚ :=
  if p = "aws" then 0 else if p = "azure" then 1
  else if p = "onpremises" then 2 else 3

/-- Mean of a list of rationals (`Series.mean`). -/
def listMean (l : List ℚ) : ℚ :=
  l.sum / l.length

/-- Sample variance with `ddof = 1` (the square of `Series.std`); only used
behind a guard requiring at least two observations. -/
def sampleVar (l : List ℚ) : ℚ :=
  (l.map fun x => (x - listMean l) ^ 2).sum / ((l.length - 1 : ℕ) : ℚ)

/-- `Series.std` (`ddof = 1`): `NaN` — modelled `none` — on fewer than two
observations, else the square root of the sample variance. -/
def sampleStd (sqrtQ : ℚ → ℚ) (l : List ℚ) : Option ℚ :=
  if 2 ≤ l.length then some (sqrtQ (sampleVar l)) else none

/-- `Series.median`: middle element of the sorted list, or the average of
the two middle elements for an even count. -/
def listMedian (l : List ℚ) : ℚ :=
  let s := l.insertionSort (· ≤ ·)
  if s.length % 2 = 1 then s.getD (s.length / 2) 0
  else (s.getD (s.length / 2 - 1) 0 + s.getD (s.length / 2) 0) / 2

/-- The 7-observation rolling window ending at index `i`, inclusive of the
current observation (`rolling(window=7, min_periods=1)`): the at most 7
entries of `costs` at positions `i-6 .. i`. -/
def rollingWindow (costs : List ℚ) (i : ℕ) : List ℚ :=
  (costs.take (i + 1)).drop (i + 1 - 7)

/-- The derived feature row of `prepare_features` (the z-score column is
`NaN` — `none` — exactly where the std column is). -/
structure FeatureRow where
  timestamp : Timestamp
  provider : String
  cost : ℚ
  hour : ℕ
  day_of_week : ℕ
  day_of_month : ℕ
  month : ℕ
  log_cost : ℚ
  provider_encoded : ℚ
  cost_rolling_mean_7d : ℚ
  cost_rolling_std_7d : Option ℚ
  cost_rolling_median_7d : ℚ
  cost_zscore : Option ℚ
  usage_hours_normalized : Option ℚ
  cost_per_resource : Option ℚ
  deriving DecidableEq, Repr

/-- The non-statistical part of a feature row: time features, log-cost
(`log1pQ` standing for `np.log1p`), provider encoding and the optional
utilization features. -/
def baseRow (log1pQ : ℚ → ℚ) (r : CostRecord)
    (m : ℚ) (sd : Option ℚ) (md : ℚ) : FeatureRow :=
  { timestamp := r.timestamp
    provider := r.provider
    cost := r.cost
    hour := r.timestamp.hour
    day_of_week := r.timestamp.day_of_week
    day_of_month := r.timestamp.day_of_month
    month := r.timestamp.month
    log_cost := log1pQ r.cost
    provider_encoded := providerEncode r.provider
    cost_rolling_mean_7d := m
    cost_rolling_std_7d := sd
    cost_rolling_median_7d := md
    cost_zscore := sd.map fun s => (r.cost - m) / (s + 1 / 100000000)
    usage_hours_normalized := r.usage_hours.map (· / 744)
    cost_per_resource := r.resource_count.map fun n => r.cost / (n + 1) }

/-- `df.sort_values('timestamp')` (performed only on the rolling branch of
`prepare_features`). -/
def sortByTs (rs : List CostRecord) : List CostRecord :=
  rs.insertionSort fun a b => a.timestamp.t ≤ b.timestamp.t

/-- The `len(df) > 7` branch of `prepare_features`: sort by timestamp, then
give row `i` the mean/std/median of the 7-observation window ending at `i`
and the z-score `(cost - rolling_mean) / (rolling_std + 1e-8)`. -/
def rollingRows (sqrtQ log1pQ : ℚ → ℚ) (rs : List CostRecord) :
    List FeatureRow :=
  let sorted := sortByTs rs
  let costs := sorted.map (·.cost)
  (List.range sorted.length).map fun i =>
    let w := rollingWindow costs i
    baseRow log1pQ (sorted.getD i default) (listMean w) (sampleStd sqrtQ w)
      (listMedian w)

/-- The fallback branch of `prepare_features` for small inputs: every row
gets the whole-series mean/std/median and the z-score against them. -/
def fallbackRows (sqrtQ log1pQ : ℚ → ℚ) (rs : List CostRecord) :
    List FeatureRow :=
  let costs := rs.map (·.cost)
  rs.map fun r =>
    baseRow log1pQ r (listMean costs) (sampleStd sqrtQ costs)
      (listMedian costs)

/-- `CostAnomalyDetector.prepare_features`, pure core: the rolling branch
when `len(df) > 7`, else the fallback branch. -/
def prepare_features_core (sqrtQ log1pQ : ℚ → ℚ) (rs : List CostRecord) :
    List FeatureRow :=
  if 7 < rs.length then rollingRows sqrtQ log1pQ rs
  else fallbackRows sqrtQ log1pQ rs

/-- `CostAnomalyDetector.prepare_features` with a fallible codomain: the
spec's contract expects an `InvalidRecord` rejection here, but the source
raises nothing for structurally valid records, so the result is always
`.ok`. -/
def prepare_features (sqrtQ log1pQ : ℚ → ℚ) (rs : List CostRecord) :
    Except MLError (List FeatureRow) :=
  .ok (prepare_features_core sqrtQ log1pQ rs)

/-- Claim C4 following the spec's words (`cost must be ≥ 0, else reject the
record, fails with InvalidRecord`): any input containing a negative-cost
record makes `prepare_features` fail with `InvalidRecord`.  This definition
follows the specification, not the source, and exists to be compared with
the source's behaviour. -/
def specRejectsNegative (sqrtQ log1pQ : ℚ → ℚ) (rs : List CostRecord) :
    Prop :=
  (∃ r ∈ rs, r.cost < 0) →
    prepare_features sqrtQ log1pQ rs = .error .invalidRecord

/-- Claim C7 following the spec's words for an input (already sorted by
timestamp, as the Feature Builder contract requires of its caller): with at
least 7 records, each row's rolling-mean field is the mean of the
7-observation window ending at that row.  This definition follows the
specification, not the source, and exists to be compared with the source's
behaviour. -/
def specRollingMeans (sqrtQ log1pQ : ℚ → ℚ) (rs : List CostRecord) : Prop :=
  7 ≤ rs.length →
    (prepare_features_core sqrtQ log1pQ rs).map (·.cost_rolling_mean_7d) =
      (List.range rs.length).map fun i =>
        listMean (rollingWindow (rs.map (·.cost)) i)

/-- A concrete 7-record input (already in ascending timestamp order) whose
first cost differs from the others: the whole-series mean and the
1-element rolling window at row 0 disagree on it. -/
def sevenRecords : List CostRecord :=
  [ ⟨⟨0, 0, 0, 1, 1⟩, "aws", 7, none, none⟩,
    ⟨⟨1, 0, 0, 1, 1⟩, "aws", 0, none, none⟩,
    ⟨⟨2, 0, 0, 1, 1⟩, "aws", 0, none, none⟩,
    ⟨⟨3, 0, 0, 1, 1⟩, "aws", 0, none, none⟩,
    ⟨⟨4, 0, 0, 1, 1⟩, "aws", 0, none, none⟩,
    ⟨⟨5, 0, 0, 1, 1⟩, "aws", 0, none, none⟩,
    ⟨⟨6, 0, 0, 1, 1⟩, "aws", 0, none, none⟩ ]

/-- A concrete 8-record input (already in ascending timestamp order), large
enough for the rolling branch of `prepare_features`. -/
def eightRecords : List CostRecord :=
  [ ⟨⟨0, 0, 0, 1, 1⟩, "aws", 1, none, none⟩,
    ⟨⟨1, 0, 0, 1, 1⟩, "aws", 2, none, none⟩,
    ⟨⟨2, 0, 0, 1, 1⟩, "aws", 3, none, none⟩,
    ⟨⟨3, 0, 0, 1, 1⟩, "aws", 4, none, none⟩,
    ⟨⟨4, 0, 0, 1, 1⟩, "aws", 5, none, none⟩,
    ⟨⟨5, 0, 0, 1, 1⟩, "aws", 6, none, none⟩,
    ⟨⟨6, 0, 0, 1, 1⟩, "aws", 7, none, none⟩,
    ⟨⟨7, 0, 0, 1, 1⟩, "aws", 8, none, none⟩ ]

/-! ## Forecasting
(`src/ml/cost_predictor.py`, `CostPredictor`).  The fitted Prophet model is
external library state; it enters the embedding as an abstract `forecast`
function producing the raw `yhat`/`yhat_lower`/`yhat_upper` columns, and
training as an abstract `fit` parameter.  The accuracy estimation
(`_calculate_accuracy`) feeds no claim and is not modelled. -/

/-- One raw row of Prophet's forecast frame. -/
structure RawForecastRow where
  ds : ℤ
  yhat : ℚ
  yhat_lower : ℚ
  yhat_upper : ℚ
  deriving DecidableEq, Repr

/-- An opaque fitted Prophet model: `forecast d` is the prediction frame
over the history extended by `d` future periods
(`model.predict(make_future_dataframe(d))`). -/
structure ProphetModel where
  forecast : ℕ → List RawForecastRow

/-- One returned prediction row of `CostPredictor.predict` after renaming
and clipping. -/
structure ForecastPoint where
  date : ℤ
  predicted_cost : ℚ
  confidence_lower : ℚ
  confidence_upper : ℚ
  deriving DecidableEq, Repr

/-- `CostPredictor` state: `model is None` before training.  The source
keeps a separate `is_trained` flag always set together with `model`; the
embedding keeps the single field, with `is_trained` derived. -/
structure CostPredictor where
  model : Option ProphetModel

/-- `CostPredictor.is_trained`. -/
def CostPredictor.is_trained (p : CostPredictor) : Bool :=
  p.model.isSome

/-- The freshly constructed predictor (`CostPredictor.__init__`). -/
def CostPredictor.init : CostPredictor :=
  { model := none }

/-- A raw history record with its calendar date (an abstract day number)
and cost, as consumed by `prepare_data`. -/
structure DailyRecord where
  date : ℤ
  cost : ℚ
  deriving DecidableEq, Repr

/-- `CostPredictor.prepare_data`: group by calendar date summing costs, in
ascending date order — one output row per distinct date. -/
def prepare_data (rows : List DailyRecord) : List (ℤ × ℚ) :=
  let dates := ((rows.map (·.date)).dedup).insertionSort (· ≤ ·)
  dates.map fun d => (d, ((rows.filter fun r => r.date = d).map (·.cost)).sum)

/-- `CostPredictor.train_model` with the Prophet fit as the abstract
parameter `fit`: fewer than 14 distinct dates fails with
`InsufficientHistory` (the source raises before any state is assigned, so a
failed call leaves the predictor untrained); otherwise the result holds the
fitted model. -/
def train_model (fit : List (ℤ × ℚ) → ProphetModel) (rows : List DailyRecord) :
    Except MLError CostPredictor :=
  let df := prepare_data rows
  if df.length < 14 then .error .insufficientHistory
  else .ok { model := some (fit df) }

/-- The clipping step of `CostPredictor.predict`: each of the point
estimate and both bounds is clipped to be non-negative
(`.clip(lower=0)`). -/
def clipRow (r : RawForecastRow) : ForecastPoint :=
  { date := r.ds
    predicted_cost := max 0 r.yhat
    confidence_lower := max 0 r.yhat_lower
    confidence_upper := max 0 r.yhat_upper }

/-- Pandas `.tail(n)`: the last `n` rows. -/
def listTail (l : List RawForecastRow) (n : ℕ) : List RawForecastRow :=
  l.drop (l.length - n)

/-- `CostPredictor.predict`: fails with `NotTrained` on an untrained
predictor, else clips the last `days_ahead` raw forecast rows. -/
def predict (p : CostPredictor) (days_ahead : ℕ) :
    Except MLError (List ForecastPoint) :=
  match p.model with
  | none => .error .notTrained
  | some m => .ok ((listTail (m.forecast days_ahead) days_ahead).map clipRow)

/-! ## Theorems -/

/-- C2: budget categorization is total — every monthly budget maps to
exactly one of the four categories; the boundary values 100000, 500000,
2000000 and 5000000 map to the higher bracket (small, medium, large,
enterprise respectively); and any value below 100000 falls through the
bracket scan and defaults to enterprise. -/
theorem budget_categorization_boundaries_and_default :
    analyze_budget_category 100000 = .small ∧
    analyze_budget_category 500000 = .medium ∧
    analyze_budget_category 2000000 = .large ∧
    analyze_budget_category 5000000 = .enterprise ∧
    (∀ b : ℚ, b < 100000 → analyze_budget_category b = .enterprise) ∧
    (∀ b : ℚ, 0 ≤ b → ∃! c : BudgetCategory, analyze_budget_category b = c) := by
  refine ⟨by decide, by decide, by decide, by decide, ?_, ?_⟩
  · intro b hb
    have h1 : ∀ lo hi : ℚ, 100000 ≤ lo →
        inBracket b (BudgetCategory.small, lo, some hi) = false ∧
        inBracket b (BudgetCategory.medium, lo, some hi) = false ∧
        inBracket b (BudgetCategory.large, lo, some hi) = false := by
      intro lo hi hlo
      refine ⟨?_, ?_, ?_⟩ <;>
        simp only [inBracket, Bool.and_eq_false_iff, decide_eq_false_iff_not] <;>
        exact Or.inl (not_le.mpr (lt_of_lt_of_le hb hlo))
    have h2 : inBracket b (BudgetCategory.enterprise, 5000000, none) = false := by
      simp only [inBracket, decide_eq_false_iff_not]
      exact not_le.mpr (lt_of_lt_of_le hb (by norm_num))
    unfold analyze_budget_category budget_thresholds
    rw [List.find?_cons_of_neg _ (by simp [(h1 100000 500000 le_rfl).1]),
      List.find?_cons_of_neg _ (by simp [(h1 500000 2000000 (by norm_num)).2.1]),
      List.find?_cons_of_neg _ (by simp [(h1 2000000 5000000 (by norm_num)).2.2]),
      List.find?_cons_of_neg _ (by simp [h2])]
    rfl
  · intro b _
    exact ⟨analyze_budget_category b, rfl, fun c hc => hc.symm⟩

/-- Witness for C2 at the concrete budget 50000. -/
theorem budget_categorization_boundaries_and_default_witness :
    (50000 : ℚ) < 100000 ∧ analyze_budget_category 50000 = .enterprise :=
  ⟨by norm_num,
    budget_categorization_boundaries_and_default.2.2.2.2.1 50000 (by norm_num)⟩

/-- C3: the severity assigned by `_calculate_severity` realises the
documented mapping — high below -0.5, medium on [-0.5, -0.2), low on
[-0.2, 0), else normal — with medium bumped to high and low to medium when
the cost exceeds twice the training p95 baseline, and the cost-magnitude
adjustment never lowers the score-derived severity. -/
theorem severity_mapping_and_escalation (p95 s c : ℚ) :
    (s < -(1/2) → calculate_severity p95 s c = .high) ∧
    (-(1/2) ≤ s → s < -(1/5) → ¬p95 * 2 < c →
      calculate_severity p95 s c = .medium) ∧
    (-(1/2) ≤ s → s < -(1/5) → p95 * 2 < c →
      calculate_severity p95 s c = .high) ∧
    (-(1/5) ≤ s → s < 0 → ¬p95 * 2 < c → calculate_severity p95 s c = .low) ∧
    (-(1/5) ≤ s → s < 0 → p95 * 2 < c →
      calculate_severity p95 s c = .medium) ∧
    (0 ≤ s → calculate_severity p95 s c = .normal) ∧
    severityRank (scoreSeverity s) ≤
      severityRank (calculate_severity p95 s c) := by
  refine ⟨?_, ?_, ?_, ?_, ?_, ?_, ?_⟩
  · intro h
    simp only [calculate_severity, scoreSeverity, if_pos h, costAdjust]
    split <;> rfl
  · intro h1 h2 h3
    simp only [calculate_severity, scoreSeverity, if_neg (not_lt.mpr h1),
      if_pos h2, costAdjust, if_neg h3]
  · intro h1 h2 h3
    simp only [calculate_severity, scoreSeverity, if_neg (not_lt.mpr h1),
      if_pos h2, costAdjust, if_pos h3]
  · intro h1 h2 h3
    have ha : ¬s < -(1/2) :=
      not_lt.mpr (le_trans (show (-(1/2) : ℚ) ≤ -(1/5) by norm_num) h1)
    simp only [calculate_severity, scoreSeverity, if_neg ha,
      if_neg (not_lt.mpr h1), if_pos h2, costAdjust, if_neg h3]
  · intro h1 h2 h3
    have ha : ¬s < -(1/2) :=
      not_lt.mpr (le_trans (show (-(1/2) : ℚ) ≤ -(1/5) by norm_num) h1)
    simp only [calculate_severity, scoreSeverity, if_neg ha,
      if_neg (not_lt.mpr h1), if_pos h2, costAdjust, if_pos h3]
  · intro h
    have h1 : ¬s < -(1/2) := not_lt.mpr (le_trans (by norm_num) h)
    have h2 : ¬s < -(1/5) := not_lt.mpr (le_trans (by norm_num) h)
    have h3 : ¬s < 0 := not_lt.mpr h
    simp only [calculate_severity, scoreSeverity, if_neg h1, if_neg h2,
      if_neg h3, costAdjust]
    split <;> rfl
  · unfold calculate_severity costAdjust
    split
    · cases scoreSeverity s <;> simp [severityRank]
    · exact le_rfl

/-- Witness for C3 at the concrete input (p95, score, cost) =
(1, -0.3, 3): a medium-score anomaly over twice the p95 baseline comes out
high. -/
theorem severity_mapping_and_escalation_witness :
    calculate_severity 1 (-(3/10)) 3 = .high :=
  (severity_mapping_and_escalation 1 (-(3/10)) 3).2.2.1 (by norm_num)
    (by norm_num) (by norm_num)

/-- C6: for an AWS storage resource last accessed 45 days ago the optimal
storage class is the infrequent-access tier (`standard_ia`), which is not
`standard`; last accessed 15 days ago it is `standard` — for every current
cost and size. -/
theorem storage_class_45_vs_15_days (cost size : ℚ) :
    (get_optimal_storage_class "aws" 45 cost size).1 = "standard_ia" ∧
    "standard_ia" ≠ "standard" ∧
    (get_optimal_storage_class "aws" 15 cost size).1 = "standard" := by
  refine ⟨?_, by decide, ?_⟩ <;> norm_num [get_optimal_storage_class]

/-- C10: a storage record whose provider is neither aws nor azure gets
optimal class `standard` with projected cost equal to its current monthly
cost, the savings are zero, and `analyze_storage_optimization`'s loop body
emits no recommendation for it (and no failure: `processStorage` is
total). -/
theorem storage_unknown_provider_no_recommendation (s : StorageRecord)
    (h1 : s.provider ≠ "aws") (h2 : s.provider ≠ "azure") :
    get_optimal_storage_class s.provider s.last_accessed_days s.monthly_cost
        s.size_gb = ("standard", s.monthly_cost) ∧
    s.monthly_cost -
      (get_optimal_storage_class s.provider s.last_accessed_days
        s.monthly_cost s.size_gb).2 = 0 ∧
    processStorage s = none := by
  have hg : get_optimal_storage_class s.provider s.last_accessed_days
      s.monthly_cost s.size_gb = ("standard", s.monthly_cost) := by
    simp [get_optimal_storage_class, h1, h2]
  refine ⟨hg, by rw [hg]; exact sub_self _, ?_⟩
  simp only [processStorage, hg]
  split
  · simp
  · rfl

/-- Witness for C10 at a concrete on-premises storage record. -/
theorem storage_unknown_provider_no_recommendation_witness :
    processStorage
      { resource_id := "san-01", provider := "onpremises",
        service := "storage", storage_class := "tier1",
        last_accessed_days := 400, monthly_cost := 900, size_gb := 5000 } =
      none :=
  (storage_unknown_provider_no_recommendation _ (by decide) (by decide)).2.2

/-- C9: budget optimization output always satisfies
`annual_savings = projected_monthly_savings * 12` and
`cost_reduction_percentage = projected_monthly_savings / current spend`
expressed as a percentage; and on any table with positive spend, a
$7,000,000 budget is categorized enterprise with reduction at least 35%
(it is exactly 45%). -/
theorem budget_optimization_identities (costs : List ℚ) (monthly_budget : ℚ) :
    (optimize_for_budget costs monthly_budget).annual_savings =
      (optimize_for_budget costs monthly_budget).projected_monthly_savings *
        12 ∧
    (optimize_for_budget costs monthly_budget).cost_reduction_percentage =
      (optimize_for_budget costs monthly_budget).projected_monthly_savings /
        (optimize_for_budget costs monthly_budget).current_monthly_cost *
        100 ∧
    (monthly_budget = 7000000 → 0 < costs.sum →
      (optimize_for_budget costs monthly_budget).budget_category =
        .enterprise ∧
      35 ≤ (optimize_for_budget costs monthly_budget).cost_reduction_percentage) := by
  refine ⟨rfl, rfl, ?_⟩
  intro hb hS
  subst hb
  have hcat : analyze_budget_category 7000000 = .enterprise := by decide
  have hne : costs.sum ≠ 0 := ne_of_gt hS
  constructor
  · simp [optimize_for_budget, hcat]
  · have hval :
        (optimize_for_budget costs 7000000).cost_reduction_percentage = 45 := by
      simp only [optimize_for_budget, hcat, projectedSavings]
      field_simp
      ring
    rw [hval]
    norm_num

/-- Witness for C9 at the concrete table [100] and budget $7,000,000. -/
theorem budget_optimization_identities_witness :
    (optimize_for_budget [(100 : ℚ)] 7000000).budget_category =
      .enterprise ∧
    35 ≤ (optimize_for_budget [(100 : ℚ)] 7000000).cost_reduction_percentage :=
  (budget_optimization_identities [(100 : ℚ)] 7000000).2.2 rfl (by norm_num)

/-- The number of distinct-date rows `prepare_data` aggregates to. -/
theorem prepare_data_length (rows : List DailyRecord) :
    (prepare_data rows).length = ((rows.map (·.date)).dedup).length := by
  simp [prepare_data, List.length_insertionSort]

/-- C8: training the Forecaster on history aggregating to fewer than 14
distinct dates fails with `InsufficientHistory` (the failure happens before
any model state is assigned, so the predictor stays untrained), and calling
`predict` on an untrained predictor fails with `NotTrained`; both failures
are returned to the caller. -/
theorem forecaster_train_predict_preconditions
    (fit : List (ℤ × ℚ) → ProphetModel) (rows : List DailyRecord)
    (p : CostPredictor) (d : ℕ) :
    (((rows.map (·.date)).dedup).length < 14 →
      train_model fit rows = .error .insufficientHistory) ∧
    (p.model = none → predict p d = .error .notTrained) := by
  constructor
  · intro h
    have hlen : (prepare_data rows).length < 14 := by
      rw [prepare_data_length]; exact h
    simp [train_model, hlen]
  · intro h
    simp [predict, h]

/-- Witness for C8: five days of history fail with `InsufficientHistory`,
and the freshly initialized predictor fails with `NotTrained`. -/
theorem forecaster_train_predict_preconditions_witness :
    train_model (fun _ => ⟨fun _ => []⟩)
        [⟨1, 10⟩, ⟨2, 12⟩, ⟨3, 9⟩, ⟨4, 11⟩, ⟨5, 10⟩] =
      .error .insufficientHistory ∧
    predict CostPredictor.init 30 = .error .notTrained :=
  ⟨(forecaster_train_predict_preconditions (fun _ => ⟨fun _ => []⟩)
      [⟨1, 10⟩, ⟨2, 12⟩, ⟨3, 9⟩, ⟨4, 11⟩, ⟨5, 10⟩] CostPredictor.init 30).1
      (by decide),
    (forecaster_train_predict_preconditions (fun _ => ⟨fun _ => []⟩)
      [] CostPredictor.init 30).2 rfl⟩

/-- C1: on a trained predictor whose raw Prophet forecast satisfies the
interval ordering `yhat_lower ≤ yhat ≤ yhat_upper` (the property the
library documents and this repository's tests assert of it), every returned
prediction row satisfies `confidence_lower ≤ predicted_cost ≤
confidence_upper` — clipping each column at zero preserves the ordering —
and all three values are non-negative. -/
theorem predict_interval_bounds (p : CostPredictor) (m : ProphetModel)
    (d : ℕ) (hm : p.model = some m)
    (hraw : ∀ r ∈ m.forecast d,
      r.yhat_lower ≤ r.yhat ∧ r.yhat ≤ r.yhat_upper)
    (pts : List ForecastPoint) (hp : predict p d = .ok pts) :
    ∀ pt ∈ pts,
      0 ≤ pt.predicted_cost ∧ 0 ≤ pt.confidence_lower ∧
      0 ≤ pt.confidence_upper ∧
      pt.confidence_lower ≤ pt.predicted_cost ∧
      pt.predicted_cost ≤ pt.confidence_upper := by
  intro pt hpt
  have hpts : pts = (listTail (m.forecast d) d).map clipRow := by
    simp only [predict, hm] at hp
    exact (Except.ok.injEq _ _).mp hp |>.symm
  rw [hpts] at hpt
  rcases List.mem_map.mp hpt with ⟨r, hr, rfl⟩
  have hr' : r ∈ m.forecast d := List.drop_subset _ _ hr
  obtain ⟨h1, h2⟩ := hraw r hr'
  exact ⟨le_max_left 0 _, le_max_left 0 _, le_max_left 0 _,
    max_le_max le_rfl h1, max_le_max le_rfl h2⟩

/-- Witness for C1 on a concrete one-row forecast. -/
theorem predict_interval_bounds_witness :
    ∃ pts, predict ⟨some ⟨fun _ => [⟨0, 5, 3, 8⟩]⟩⟩ 1 = Except.ok pts ∧
      ∀ pt ∈ pts,
        0 ≤ pt.predicted_cost ∧ 0 ≤ pt.confidence_lower ∧
        0 ≤ pt.confidence_upper ∧
        pt.confidence_lower ≤ pt.predicted_cost ∧
        pt.predicted_cost ≤ pt.confidence_upper := by
  have hps : predict ⟨some ⟨fun _ => [⟨0, 5, 3, 8⟩]⟩⟩ 1 =
      Except.ok [(⟨0, 5, 3, 8⟩ : ForecastPoint)] := by
    simp [predict, listTail, clipRow]
  exact ⟨_, hps,
    predict_interval_bounds _ _ 1 rfl (by decide) _ hps⟩

/-- C4 counterexample: a one-record input with cost −5 is not rejected —
`prepare_features` succeeds on it, contradicting the claim that any input
containing a negative-cost record fails with `InvalidRecord`. -/
theorem prepare_features_negative_not_rejected :
    ¬ specRejectsNegative id id
        [{ timestamp := ⟨0, 0, 0, 1, 1⟩, provider := "aws", cost := -5,
           usage_hours := none, resource_count := none }] := by
  intro h
  have hneg := h ⟨_, List.mem_singleton.mpr rfl, by norm_num⟩
  exact Except.noConfusion hneg

/-- C4 amended: feature preparation never rejects any record — negative
costs included, it returns `.ok` with exactly one feature row per input
record (the negative cost is passed to the log transform and flows into a
feature row). -/
theorem prepare_features_total (sqrtQ log1pQ : ℚ → ℚ)
    (rs : List CostRecord) :
    prepare_features sqrtQ log1pQ rs =
      .ok (prepare_features_core sqrtQ log1pQ rs) ∧
    (prepare_features_core sqrtQ log1pQ rs).length = rs.length := by
  refine ⟨rfl, ?_⟩
  unfold prepare_features_core
  split
  · simp [rollingRows, sortByTs, List.length_insertionSort]
  · simp [fallbackRows]

/-- C7 counterexample: on an input of exactly 7 records the source takes
the fallback branch (`len(df) > 7` is false), so the rolling-mean column
does not hold the 7-record rolling means the claim requires of every input
with at least 7 records. -/
theorem rolling_threshold_counterexample :
    ¬ specRollingMeans id id sevenRecords := by
  intro h
  have heq := h (by norm_num [sevenRecords])
  have h0 := congrArg (fun l => l[0]?) heq
  simp only [sevenRecords, prepare_features_core, fallbackRows, baseRow,
    List.length_cons, List.length_nil, List.map_cons, List.map_nil,
    List.getElem?_cons_zero, List.range_succ, List.range_zero,
    List.nil_append, List.cons_append, Option.some.injEq] at h0
  norm_num [listMean, rollingWindow] at h0

/-- C7 amended: with more than 7 records (at least 8), each feature row
carries the mean, std and median of the 7-record window ending at that row
of the timestamp-sorted series (inclusive of the current record, no
look-ahead) and the z-score `(cost - rolling_mean) / (rolling_std + 1e-8)`
(`NaN` — `none` — exactly when the window std is, i.e. on the first row);
with 7 or fewer records every row carries the whole-series mean, std,
median and the z-score against them. -/
theorem prepare_features_window_semantics (sqrtQ log1pQ : ℚ → ℚ)
    (rs : List CostRecord) :
    (7 < rs.length → ∀ i, i < rs.length →
      ∃ row, (prepare_features_core sqrtQ log1pQ rs)[i]? = some row ∧
        row.cost_rolling_mean_7d =
          listMean (rollingWindow ((sortByTs rs).map (·.cost)) i) ∧
        row.cost_rolling_std_7d =
          sampleStd sqrtQ (rollingWindow ((sortByTs rs).map (·.cost)) i) ∧
        row.cost_rolling_median_7d =
          listMedian (rollingWindow ((sortByTs rs).map (·.cost)) i) ∧
        row.cost_zscore =
          (sampleStd sqrtQ
              (rollingWindow ((sortByTs rs).map (·.cost)) i)).map
            fun s =>
              (row.cost -
                  listMean (rollingWindow ((sortByTs rs).map (·.cost)) i)) /
                (s + 1 / 100000000)) ∧
    (rs.length ≤ 7 → ∀ i, i < rs.length →
      ∃ row, (prepare_features_core sqrtQ log1pQ rs)[i]? = some row ∧
        row.cost_rolling_mean_7d = listMean (rs.map (·.cost)) ∧
        row.cost_rolling_std_7d = sampleStd sqrtQ (rs.map (·.cost)) ∧
        row.cost_rolling_median_7d = listMedian (rs.map (·.cost)) ∧
        row.cost_zscore = (sampleStd sqrtQ (rs.map (·.cost))).map
          fun s => (row.cost - listMean (rs.map (·.cost))) /
            (s + 1 / 100000000)) := by
  constructor
  · intro hlen i hi
    have hn : (sortByTs rs).length = rs.length :=
      List.length_insertionSort _ _
    have hget : (prepare_features_core sqrtQ log1pQ rs)[i]? =
        some (baseRow log1pQ ((sortByTs rs).getD i default)
          (listMean (rollingWindow ((sortByTs rs).map (·.cost)) i))
          (sampleStd sqrtQ (rollingWindow ((sortByTs rs).map (·.cost)) i))
          (listMedian (rollingWindow ((sortByTs rs).map (·.cost)) i))) := by
      unfold prepare_features_core
      rw [if_pos hlen]
      simp only [rollingRows]
      rw [List.getElem?_map, List.getElem?_range (hn ▸ hi)]
      rfl
    exact ⟨_, hget, rfl, rfl, rfl, rfl⟩
  · intro hlen i hi
    have hget : (prepare_features_core sqrtQ log1pQ rs)[i]? =
        some (baseRow log1pQ (rs.getD i default)
          (listMean (rs.map (·.cost)))
          (sampleStd sqrtQ (rs.map (·.cost)))
          (listMedian (rs.map (·.cost)))) := by
      unfold prepare_features_core
      rw [if_neg (not_lt.mpr hlen)]
      simp only [fallbackRows]
      rw [List.getElem?_map, List.getElem?_eq_getElem hi]
      simp [List.getD_eq_getElem?_getD, List.getElem?_eq_getElem hi]
    exact ⟨_, hget, rfl, rfl, rfl, rfl⟩

/-- Witness for C7 (amended) on the concrete 8-record input. -/
theorem prepare_features_window_semantics_witness :
    ((prepare_features_core id id eightRecords)[0]?).isSome = true := by
  obtain ⟨row, hrow, -⟩ :=
    (prepare_features_window_semantics id id eightRecords).1 (by decide) 0
      (by decide)
  rw [hrow]
  rfl

/-- Association-list lookup finds exactly the stored value when the keys
are distinct. -/
theorem lookup_of_keysNodup {β : Type _} {l : List (String × β)}
    {k : String} {v : β} (hnd : (l.map Prod.fst).Nodup) (hm : (k, v) ∈ l) :
    l.lookup k = some v := by
  induction l with
  | nil => cases hm
  | cons e t ih =>
    rcases List.mem_cons.mp hm with he | ht
    · subst he
      exact List.lookup_cons_self
    · have hk : (k == e.1) = false := by
        rw [beq_eq_false_iff_ne]
        intro hke
        exact (List.nodup_cons.mp hnd).1
          (hke ▸ List.mem_map_of_mem Prod.fst ht)
      rw [show e = (e.1, e.2) from rfl, List.lookup_cons, hk]
      exact ih (List.nodup_cons.mp hnd).2 ht

/-- A successful association-list lookup comes from a stored pair. -/
theorem mem_of_lookup_eq_some {β : Type _} {l : List (String × β)}
    {k : String} {v : β} (h : l.lookup k = some v) : (k, v) ∈ l := by
  rcases List.lookup_eq_some_iff.mp h with ⟨l₁, l₂, rfl, -⟩
  simp

/-- Invariant of `_find_optimal_instance_type`'s scan: the final best is
either the initial pair or a qualifying catalog entry strictly cheaper than
the initial cost; its cost never rises; and it is at most the cost of every
qualifying entry. -/
theorem rsFold_inv (rc rm : ℚ) (l : List (String × InstanceSpec))
    (b : String × ℚ) :
    (l.foldl (rsStep rc rm) b = b ∨
      ∃ e ∈ l, (rc ≤ e.2.cpu ∧ rm ≤ e.2.memory) ∧
        l.foldl (rsStep rc rm) b = (e.1, e.2.cost) ∧
        (l.foldl (rsStep rc rm) b).2 < b.2) ∧
    (l.foldl (rsStep rc rm) b).2 ≤ b.2 ∧
    (∀ e ∈ l, rc ≤ e.2.cpu → rm ≤ e.2.memory →
      (l.foldl (rsStep rc rm) b).2 ≤ e.2.cost) := by
  induction l generalizing b with
  | nil => simp
  | cons e t ih =>
    obtain ⟨hprov, hle, hmin⟩ := ih (rsStep rc rm b e)
    rw [List.foldl_cons]
    have hstep2 : (rsStep rc rm b e).2 ≤ b.2 := by
      unfold rsStep
      split
      · next hc => exact le_of_lt hc.2.2
      · exact le_rfl
    refine ⟨?_, le_trans hle hstep2, ?_⟩
    · rcases hprov with hb | ⟨e1, he1, hq1, heq1, hlt1⟩
      · by_cases hfire : rc ≤ e.2.cpu ∧ rm ≤ e.2.memory ∧ e.2.cost < b.2
        · right
          refine ⟨e, List.mem_cons_self e t, ⟨hfire.1, hfire.2.1⟩, ?_, ?_⟩
          · rw [hb]
            unfold rsStep
            rw [if_pos hfire]
          · rw [hb]
            unfold rsStep
            rw [if_pos hfire]
            exact hfire.2.2
        · left
          rw [hb]
          unfold rsStep
          rw [if_neg hfire]
      · exact Or.inr ⟨e1, List.mem_cons_of_mem e he1, hq1, heq1,
          lt_of_lt_of_le hlt1 hstep2⟩
    · intro e2 h2 hc hm2
      rcases List.mem_cons.mp h2 with rfl | ht
      · by_cases hcost : e2.2.cost < b.2
        · have hfired : (rsStep rc rm b e2).2 = e2.2.cost := by
            unfold rsStep
            rw [if_pos ⟨hc, hm2, hcost⟩]
          exact le_trans hle (le_of_eq hfired)
        · exact le_trans hle (le_trans hstep2 (not_lt.mp hcost))
      · exact hmin e2 ht hc hm2

/-- The full characterization of `generate_rightsizing_one`'s emission
decision in terms of the catalog's qualifying entries (shared between the
claim theorems below). -/
theorem rightsizing_emission_core
    (inst : InstanceRecord) (catalog : Catalog) (cs : InstanceSpec)
    (hcat : instance_hierarchy.lookup inst.provider = some catalog)
    (hnd : (catalog.map Prod.fst).Nodup)
    (hcs : catalog.lookup inst.instance_type = some cs) :
    ((generate_rightsizing_one inst).isSome = true ↔
      ∃ e ∈ catalog,
        codeQualifies cs inst.cpu_utilization inst.memory_utilization e ∧
        e.2.cost < cs.cost ∧ 10 < inst.monthly_cost - e.2.cost ∧
        ∀ e2 ∈ catalog,
          codeQualifies cs inst.cpu_utilization inst.memory_utilization e2 →
          e.2.cost ≤ e2.2.cost) ∧
    (∀ rec, generate_rightsizing_one inst = some rec →
      ∃ e ∈ catalog,
        codeQualifies cs inst.cpu_utilization inst.memory_utilization e ∧
        rec.recommended_instance = e.1 ∧ rec.projected_cost = e.2.cost ∧
        e.2.cost < cs.cost ∧
        rec.monthly_savings = inst.monthly_cost - e.2.cost ∧
        ∀ e2 ∈ catalog,
          codeQualifies cs inst.cpu_utilization inst.memory_utilization e2 →
          e.2.cost ≤ e2.2.cost) := by
  classical
  set rc := requiredCpu cs inst.cpu_utilization with hrc
  set rm := requiredMemory cs inst.memory_utilization with hrm
  set r := catalog.foldl (rsStep rc rm) (inst.instance_type, cs.cost) with hr
  have hfind : find_optimal_instance_type instance_hierarchy inst.provider
      inst.instance_type inst.cpu_utilization inst.memory_utilization =
      r.1 := by
    unfold find_optimal_instance_type
    rw [hcat]
    simp only [Option.getD_some, hcs]
  obtain ⟨hprov, hle, hmin⟩ :=
    rsFold_inv rc rm catalog (inst.instance_type, cs.cost)
  rw [← hr] at hprov hle hmin
  have huniq : ∀ v, (inst.instance_type, v) ∈ catalog → v = cs := by
    intro v hv
    have := lookup_of_keysNodup hnd hv
    rw [hcs] at this
    exact (Option.some_inj.mp this).symm
  have hqual_iff : ∀ e : String × InstanceSpec,
      codeQualifies cs inst.cpu_utilization inst.memory_utilization e ↔
      (rc ≤ e.2.cpu ∧ rm ≤ e.2.memory) := fun e => Iff.rfl
  by_cases hne : r.1 = inst.instance_type
  · -- no recommendation: the scan never moved off the current type
    have hnoex : ¬ ∃ e ∈ catalog,
        codeQualifies cs inst.cpu_utilization inst.memory_utilization e ∧
        e.2.cost < cs.cost ∧ 10 < inst.monthly_cost - e.2.cost ∧
        ∀ e2 ∈ catalog,
          codeQualifies cs inst.cpu_utilization inst.memory_utilization e2 →
          e.2.cost ≤ e2.2.cost := by
      rintro ⟨e, he, hq, hcheap, -, -⟩
      have hr2 : r.2 < cs.cost :=
        lt_of_le_of_lt (hmin e he hq.1 hq.2) hcheap
      rcases hprov with hb | ⟨e1, he1, hq1, heq1, hlt1⟩
      · rw [hb] at hr2
        exact absurd hr2 (lt_irrefl _)
      · have h11 : e1.1 = inst.instance_type := by
          rw [heq1] at hne
          exact hne
        have : e1.2 = cs := huniq e1.2 (by rw [← h11]; exact he1)
        rw [heq1] at hr2
        rw [this] at hr2
        exact absurd hr2 (lt_irrefl _)
    have hnone : generate_rightsizing_one inst = none := by
      unfold generate_rightsizing_one
      rw [hcat]
      simp only [hfind]
      rw [if_neg (by simp [hne])]
    rw [hnone]
    refine ⟨?_, ?_⟩
    · simp only [Option.isSome_none, Bool.false_eq_true, false_iff]
      exact hnoex
    · intro rec hrec
      exact absurd hrec (by simp)
  · -- the scan selected a strictly cheaper qualifying entry e1
    rcases hprov with hb | ⟨e1, he1, hq1, heq1, hlt1⟩
    · rw [hb] at hne
      exact absurd rfl hne
    have hr1 : r.1 = e1.1 := by rw [heq1]
    have hr2 : r.2 = e1.2.cost := by rw [heq1]
    have hcheap1 : e1.2.cost < cs.cost := by
      rw [← hr2]
      exact hlt1
    have hlook1 : catalog.lookup r.1 = some e1.2 := by
      rw [hr1]
      exact lookup_of_keysNodup hnd (by rw [show (e1.1, e1.2) = e1 from rfl]; exact he1)
    have hmin1 : ∀ e2 ∈ catalog,
        codeQualifies cs inst.cpu_utilization inst.memory_utilization e2 →
        e1.2.cost ≤ e2.2.cost := by
      intro e2 h2 hq2
      rw [← hr2]
      exact hmin e2 h2 hq2.1 hq2.2
    have hform : generate_rightsizing_one inst =
        (if 10 < inst.monthly_cost - e1.2.cost then
          some { resource_id := inst.resource_id
                 provider := inst.provider
                 service := inst.service
                 current_instance := inst.instance_type
                 recommended_instance := r.1
                 current_cost := inst.monthly_cost
                 projected_cost := e1.2.cost
                 monthly_savings := inst.monthly_cost - e1.2.cost
                 confidence := calculate_recommendation_confidence
                   inst.cpu_utilization inst.memory_utilization
                   ((inst.monthly_cost - e1.2.cost) / inst.monthly_cost) }
          else none) := by
      unfold generate_rightsizing_one
      rw [hcat]
      simp only [hfind]
      rw [if_pos (by simp [hne]), hlook1]
    constructor
    · constructor
      · intro hsome
        rw [hform] at hsome
        have hsav : 10 < inst.monthly_cost - e1.2.cost := by
          by_contra hnot
          rw [if_neg hnot] at hsome
          simp at hsome
        exact ⟨e1, he1, hq1, hcheap1, hsav, hmin1⟩
      · rintro ⟨e, he, hq, hcheap, hsav, hminE⟩
        have heq : e.2.cost = e1.2.cost :=
          le_antisymm (hminE e1 he1 hq1) (hmin1 e he hq)
        rw [hform, if_pos (heq ▸ hsav)]
        rfl
    · intro rec hrec
      rw [hform] at hrec
      by_cases hsav : 10 < inst.monthly_cost - e1.2.cost
      · rw [if_pos hsav] at hrec
        have hrec' := Option.some_inj.mp hrec
        refine ⟨e1, he1, hq1, ?_, ?_, hcheap1, ?_, hmin1⟩
        · rw [← hrec']
          exact hr1.symm ▸ rfl
        · rw [← hrec']
        · rw [← hrec']
      · rw [if_neg hsav] at hrec
        exact absurd hrec (by simp)

/-- Witness for C4 (amended) at a concrete negative-cost record: the
record flows through to exactly one feature row. -/
theorem prepare_features_total_witness :
    (prepare_features_core id id
      [{ timestamp := ⟨0, 0, 0, 1, 1⟩, provider := "aws", cost := -5,
         usage_hours := none, resource_count := none }]).length = 1 :=
  (prepare_features_total id id
    [{ timestamp := ⟨0, 0, 0, 1, 1⟩, provider := "aws", cost := -5,
       usage_hours := none, resource_count := none }]).2

/-- Witness for C6 at the concrete cost $100 and size 1000 GB. -/
theorem storage_class_45_vs_15_days_witness :
    (get_optimal_storage_class "aws" 45 100 1000).1 = "standard_ia" ∧
    (get_optimal_storage_class "aws" 15 100 1000).1 = "standard" :=
  ⟨(storage_class_45_vs_15_days 100 1000).1,
    (storage_class_45_vs_15_days 100 1000).2.2⟩

/-- C5 counterexample: an AWS `m5.xlarge` (4 vCPU, 16 GiB, catalog cost
$140.16) at 55% CPU and 30% memory utilization, with monthly cost $140.16.
The claim's real-valued requirement asks for cpu ≥ 4 × 0.55 × 1.2 = 2.64,
which no catalog entry cheaper than the m5.xlarge satisfies, so per the
claim no recommendation is produced; the code truncates the requirement
with `int()` down to 2, finds the cheaper `t3.large` and emits a
recommendation. -/
theorem rightsizing_requirement_counterexample :
    (generate_rightsizing_one
        ⟨"i-cex", "aws", "ec2", "m5.xlarge", 55, 30, 14016/100⟩).isSome =
      true ∧
    ¬ specProducesRec awsCatalog
        ⟨"i-cex", "aws", "ec2", "m5.xlarge", 55, 30, 14016/100⟩ := by
  constructor
  · have h := (rightsizing_emission_core
        ⟨"i-cex", "aws", "ec2", "m5.xlarge", 55, 30, 14016/100⟩ awsCatalog
        ⟨4, 16, 14016/100⟩ rfl (by decide) rfl).1
    refine h.mpr ⟨("t3.large", ⟨2, 8, 56⟩), by simp [awsCatalog], ?_,
      by norm_num, by norm_num, ?_⟩
    · norm_num [codeQualifies, requiredCpu, requiredMemory, pyInt]
    · intro e2 h2 hq2
      simp only [awsCatalog, List.mem_cons, List.not_mem_nil, or_false]
        at h2
      rcases h2 with rfl | rfl | rfl | rfl | rfl | rfl | rfl | rfl | rfl <;>
        norm_num [codeQualifies, requiredCpu, requiredMemory, pyInt]
          at hq2 ⊢
  · rintro ⟨cs, hcs, e, he, hq, hcheap, -, -⟩
    have hcs2 : awsCatalog.lookup "m5.xlarge" = some cs := hcs
    have hl : awsCatalog.lookup "m5.xlarge" =
        some (⟨4, 16, 14016/100⟩ : InstanceSpec) := rfl
    rw [hl] at hcs2
    obtain rfl := (Option.some_inj.mp hcs2).symm
    simp only [awsCatalog, List.mem_cons, List.not_mem_nil, or_false] at he
    rcases he with rfl | rfl | rfl | rfl | rfl | rfl | rfl | rfl | rfl <;>
      norm_num [specQualifies] at hq hcheap

/-- C5 amended: given the provider's catalog, distinct catalog keys and the
current type's catalog entry, a rightsizing recommendation is produced iff
some catalog entry meets the requirements exactly as the code computes them
(`cpu ≥ max(1, int(cpu_spec × util% × 1.2))` and
`memory ≥ max(0.5, mem_spec × util% × 1.2)`), costs less than the current
type's catalog cost, is cost-minimal among the entries meeting the
requirements, and beats the instance's monthly cost by more than
$10/month; and any emitted recommendation names such a lowest-cost
qualifying entry, with savings equal to the monthly cost minus that entry's
catalog cost. -/
theorem rightsizing_emission_characterization
    (inst : InstanceRecord) (catalog : Catalog) (cs : InstanceSpec)
    (hcat : instance_hierarchy.lookup inst.provider = some catalog)
    (hnd : (catalog.map Prod.fst).Nodup)
    (hcs : catalog.lookup inst.instance_type = some cs) :
    ((generate_rightsizing_one inst).isSome = true ↔
      ∃ e ∈ catalog,
        codeQualifies cs inst.cpu_utilization inst.memory_utilization e ∧
        e.2.cost < cs.cost ∧ 10 < inst.monthly_cost - e.2.cost ∧
        ∀ e2 ∈ catalog,
          codeQualifies cs inst.cpu_utilization inst.memory_utilization e2 →
          e.2.cost ≤ e2.2.cost) ∧
    (∀ rec, generate_rightsizing_one inst = some rec →
      ∃ e ∈ catalog,
        codeQualifies cs inst.cpu_utilization inst.memory_utilization e ∧
        rec.recommended_instance = e.1 ∧ rec.projected_cost = e.2.cost ∧
        e.2.cost < cs.cost ∧
        rec.monthly_savings = inst.monthly_cost - e.2.cost ∧
        ∀ e2 ∈ catalog,
          codeQualifies cs inst.cpu_utilization inst.memory_utilization e2 →
          e.2.cost ≤ e2.2.cost) :=
  rightsizing_emission_core inst catalog cs hcat hnd hcs

/-- Witness for C5 (amended) on the spec's own scenario: an AWS m5.4xlarge
at 25% CPU / 30% memory, $560.16/month, where the m5.2xlarge qualifies and
a recommendation is emitted. -/
theorem rightsizing_emission_characterization_witness :
    (generate_rightsizing_one
        ⟨"i-001", "aws", "ec2", "m5.4xlarge", 25, 30, 56016/100⟩).isSome =
      true := by
  have h := rightsizing_emission_characterization
      ⟨"i-001", "aws", "ec2", "m5.4xlarge", 25, 30, 56016/100⟩ awsCatalog
      ⟨16, 64, 56016/100⟩ rfl (by decide) rfl
  refine h.1.mpr ⟨("m5.2xlarge", ⟨8, 32, 28032/100⟩), by simp [awsCatalog],
    ?_, by norm_num, by norm_num, ?_⟩
  · norm_num [codeQualifies, requiredCpu, requiredMemory, pyInt]
  · intro e2 h2 hq2
    simp only [awsCatalog, List.mem_cons, List.not_mem_nil, or_false] at h2
    rcases h2 with rfl | rfl | rfl | rfl | rfl | rfl | rfl | rfl | rfl <;>
      norm_num [codeQualifies, requiredCpu, requiredMemory, pyInt] at hq2 ⊢

end CloudCost
